import Mathlib

/-!
Shallow embedding of `src/examples/HelloWorld/HelloWorld.cpp`.

The single source file defines a C++ class `HelloClass` with three numeric
fields (`int64_t one`, `int32_t two`, `double three`) and a private field
(`int32_t thisIsPrivate`), three constructors, an empty destructor, two
virtual printing methods (`SayHello`, `Say`) and one static printing method
(`StaticHello`).

Embedding conventions:
* Fixed-width integers are embedded as `Int`; every operation in the file
  merely stores or prints values of the same declared width, so no
  truncation ever occurs.
* `double` values are embedded as exact rationals (`ℚ`); the file only
  stores doubles and prints them with the default formatting of `std::ostream`,
  and every double that arises is exactly representable.
* A C++ constructor leaves unassigned members indeterminate, so each
  constructor takes an `indet : HelloClass` pre-state describing the
  indeterminate contents of the freshly allocated object; members the
  constructor body does not assign keep their `indet` values.
* Methods are embedded in state-passing style: each returns the post-state
  of the object together with the string of bytes written to standard
  output.  `Say` receives an `Option String` for its `const char*`
  argument; the null pointer case is undefined behaviour and is embedded
  as `none` (no defined result).
-/

/-- The fields of the C++ class `HelloClass`: `int64_t one`, `int32_t two`,
`double three` and the private `int32_t thisIsPrivate`. -/
structure HelloClass where
  one : Int
  two : Int
  three : ℚ
  thisIsPrivate : Int
deriving DecidableEq, Repr

/-- Decimal rendering of an integer by `std::ostream`, as in
`std::cout << one`: the usual decimal digits, with a leading minus sign for
negative values.  `Int.repr` is exactly this rendering. -/
def ostreamInt (n : Int) : String :=
  Int.repr n

/-- Number of decimal digits of a natural number (`0` has one digit). -/
def natDigits (n : Nat) : Nat :=
  (Nat.toDigits 10 n).length

/-- Least `j` with `d ≤ n * 10 ^ j`, for `1 ≤ n`.  Used to find the decimal
exponent of a rational below `1`. -/
def leastScale (n d : Nat) : Nat :=
  (((List.range (natDigits d + 1)).filter (fun j => decide (d ≤ n * 10 ^ j))).headD 0)

/-- Decimal exponent of the positive rational `n / d` (with `1 ≤ n`): the
unique `e` with `10 ^ e ≤ n / d < 10 ^ (e + 1)`. -/
def posDecExp (n d : Nat) : Int :=
  if d ≤ n then ((natDigits (n / d) - 1 : Nat) : Int)
  else -((leastScale n d : Nat) : Int)

/-- Nearest integer to the nonnegative fraction `a / b` (with `1 ≤ b`),
halves rounded upward: `⌊(a + b/2) / b⌋` computed as `(2a + b) / (2b)`. -/
def roundHalfUp (a b : Nat) : Nat :=
  (2 * a + b) / (2 * b)

/-- Round the positive rational `n / d` with decimal exponent `e` to six
significant decimal digits, returning the integer mantissa in
`[10^5, 10^6]`.  (Exact halfway cases are rounded upward here; no value in
this development meets one.) -/
def sigRound6 (n d : Nat) (e : Int) : Nat :=
  if e ≤ 5 then roundHalfUp (n * 10 ^ (5 - e).toNat) d
  else roundHalfUp n (d * 10 ^ (e - 5).toNat)

/-- Drop trailing `0` characters from a digit list. -/
def stripTailZeros (s : List Char) : List Char :=
  (s.reverse.dropWhile (fun c => decide (c = '0'))).reverse

/-- Rendering of a positive double (embedded as the exact rational
`n / d`, `1 ≤ n`, `1 ≤ d`) by the default formatting of `std::ostream`:
precision 6, `defaultfloat`, i.e. the `%g` rules — round to six
significant digits, use fixed style when the decimal exponent `e`
satisfies `-4 ≤ e < 6` and scientific style otherwise, and drop trailing
zeros (and a bare decimal point). -/
def ostreamDoublePos (n d : Nat) : String :=
  let e0 := posDecExp n d
  let m0 := sigRound6 n d e0
  let me := if m0 = 10 ^ 6 then ((10 : Nat) ^ 5, e0 + 1) else (m0, e0)
  let m := me.1
  let e := me.2
  let ds := Nat.toDigits 10 m
  if -4 ≤ e ∧ e < 6 then
    if 0 ≤ e then
      let k := e.toNat + 1
      let frac := stripTailZeros (ds.drop k)
      String.mk (ds.take k) ++ (if frac.isEmpty then "" else "." ++ String.mk frac)
    else
      let frac := stripTailZeros (List.replicate ((-e).toNat - 1) '0' ++ ds)
      "0." ++ String.mk frac
  else
    let frac := stripTailZeros (ds.drop 1)
    let mant := String.mk (ds.take 1) ++ (if frac.isEmpty then "" else "." ++ String.mk frac)
    let sign := if e < 0 then "-" else "+"
    let ea := e.natAbs
    let estr := if ea < 10 then "0" ++ Nat.repr ea else Nat.repr ea
    mant ++ "e" ++ sign ++ estr

/-- Rendering of a double (embedded as an exact rational) by
the default formatting of `std::ostream`, as in `std::cout << three`. -/
def ostreamDouble (q : ℚ) : String :=
  if q.num = 0 then "0"
  else if q.num < 0 then "-" ++ ostreamDoublePos q.num.natAbs q.den
  else ostreamDoublePos q.num.natAbs q.den

namespace HelloClass

/-- The no-argument constructor `HelloClass::HelloClass()`: assigns
`one = 1`, `two = 2`, `three = 3`, `thisIsPrivate = 4`.  Every member is
assigned, so nothing of the indeterminate pre-state survives. -/
def mkDefault (_indet : HelloClass) : HelloClass :=
  { one := 1, two := 2, three := 3, thisIsPrivate := 4 }

/-- The two-argument constructor `HelloClass::HelloClass(int64_t, int32_t)`:
assigns `one` and `two`; `three` and `thisIsPrivate` are not assigned and
keep their indeterminate values. -/
def mkTwo (indet : HelloClass) (one : Int) (two : Int) : HelloClass :=
  { indet with one := one, two := two }

/-- The three-argument constructor
`HelloClass::HelloClass(int64_t, int32_t, double)`: assigns `one`, `two`
and `three`; `thisIsPrivate` is not assigned and keeps its indeterminate
value. -/
def mkThree (indet : HelloClass) (one : Int) (two : Int) (three : ℚ) : HelloClass :=
  { indet with one := one, two := two, three := three }

/-- The destructor `HelloClass::~HelloClass()`: an empty body, so it writes
nothing to standard output. -/
def destruct (_self : HelloClass) : String :=
  ""

/-- `HelloClass::SayHello()`: writes
`"Hello, from HelloClass with\none: " << one << ", two: " << two
 << ", and three: " << three << std::endl` to standard output.  The method
body assigns no member, so the post-state equals the pre-state. -/
def SayHello (self : HelloClass) : HelloClass × String :=
  (self,
    "Hello, from HelloClass with\none: " ++ ostreamInt self.one ++
      ", two: " ++ ostreamInt self.two ++
      ", and three: " ++ ostreamDouble self.three ++ "\n")

/-- `HelloClass::Say(const char* value)`: writes `value << std::endl` to
standard output.  A null `value` (`none`) is undefined behaviour, embedded
as no defined result.  The method body assigns no member, so in the defined
case the post-state equals the pre-state. -/
def Say (self : HelloClass) (value : Option String) : Option (HelloClass × String) :=
  match value with
  | some s => some (self, s ++ "\n")
  | none => none

/-- `HelloClass::StaticHello()`: writes
`"Hello, from HelloClass::StaticHello!" << std::endl` to standard output;
no instance is involved. -/
def StaticHello : String :=
  "Hello, from HelloClass::StaticHello!\n"

end HelloClass

/-- An instance-level call: one of the operations that can be performed on
(or around) an already constructed object without destroying it.  The
`say` case carries the (non-null) text argument. -/
inductive MOp where
  | sayHello : MOp
  | say : String → MOp
  | staticHello : MOp
deriving DecidableEq, Repr

/-- One instance-level call: the post-state of the object and the bytes
written to standard output. -/
def step (self : HelloClass) : MOp → HelloClass × String
  | .sayHello => self.SayHello
  | .say v =>
      match self.Say (some v) with
      | some r => r
      | none => (self, "")
  | .staticHello => (self, HelloClass.StaticHello)

/-- A sequence of instance-level calls, threading the object state and
concatenating the output. -/
def run (self : HelloClass) : List MOp → HelloClass × String
  | [] => (self, "")
  | op :: rest =>
      let r := step self op
      let r2 := run r.1 rest
      (r2.1, r.2 ++ r2.2)

/-- Every operation of the class, including the three constructor forms
and destruction.  Constructor cases carry the indeterminate pre-state of
the freshly allocated object. -/
inductive Call where
  | construct0 : HelloClass → Call
  | construct2 : HelloClass → Int → Int → Call
  | construct3 : HelloClass → Int → Int → ℚ → Call
  | sayHello : HelloClass → Call
  | say : HelloClass → Option String → Call
  | staticHello : Call
  | destruct : HelloClass → Call

/-- Execute one operation: `some (resulting live instance if any, output)`
when the call has defined behaviour, `none` otherwise.  Only `Say` on a
null pointer lacks defined behaviour. -/
def runCall : Call → Option (Option HelloClass × String)
  | .construct0 indet => some (some (HelloClass.mkDefault indet), "")
  | .construct2 indet a b => some (some (HelloClass.mkTwo indet a b), "")
  | .construct3 indet a b c => some (some (HelloClass.mkThree indet a b c), "")
  | .sayHello self => some (some self.SayHello.1, self.SayHello.2)
  | .say self v => (self.Say v).map (fun r => (some r.1, r.2))
  | .staticHello => some (none, HelloClass.StaticHello)
  | .destruct self => some (none, HelloClass.destruct self)

/-- The documented domain of each operation: every call is documented
except `say` with a null text reference. -/
def documented : Call → Bool
  | .say _ none => false
  | _ => true

example : ostreamDouble 3 = "3" := by decide
example : ostreamDouble (Rat.divInt 5 2) = "2.5" := by decide
example : ostreamDouble 0 = "0" := by decide
example : ostreamDouble (Rat.divInt (-125) 100) = "-1.25" := by decide
example : ostreamDouble 123456789 = "1.23457e+08" := by decide
example : ostreamDouble (Rat.divInt 1 1000) = "0.001" := by decide
example : ostreamDouble (Rat.divInt 1 100000) = "1e-05" := by decide
example : ostreamDouble 1000000 = "1e+06" := by decide
example : ostreamDouble (Rat.divInt 9999999 10) = "1e+06" := by decide
example : ostreamInt (-42) = "-42" := by decide

/-- Helper: a single instance-level call never changes the object state. -/
theorem step_fst (self : HelloClass) (op : MOp) : (step self op).1 = self := by
  cases op <;> rfl

/-- Claim C1: for every instance constructed with the no-argument
constructor — whatever indeterminate contents the freshly allocated object
held — the fields hold exactly `one = 1`, `two = 2`, `three = 3`, and the
hidden field `thisIsPrivate` holds `4`. -/
theorem defaultCtor_fields (indet : HelloClass) :
    (HelloClass.mkDefault indet).one = 1 ∧
    (HelloClass.mkDefault indet).two = 2 ∧
    (HelloClass.mkDefault indet).three = 3 ∧
    (HelloClass.mkDefault indet).thisIsPrivate = 4 :=
  ⟨rfl, rfl, rfl, rfl⟩

/-- Claim C2: for every pair of argument values, the two-argument
constructor sets `one` and `two` to the supplied values while `three` and
the hidden field keep whatever indeterminate values the freshly allocated
object held; in particular there is an allocation under which `three` does
not equal `3` afterwards. -/
theorem twoArgCtor_fields (indet : HelloClass) (a b : Int) :
    (HelloClass.mkTwo indet a b).one = a ∧
    (HelloClass.mkTwo indet a b).two = b ∧
    (HelloClass.mkTwo indet a b).three = indet.three ∧
    (HelloClass.mkTwo indet a b).thisIsPrivate = indet.thisIsPrivate ∧
    ∃ g : HelloClass, (HelloClass.mkTwo g a b).three ≠ 3 :=
  ⟨rfl, rfl, rfl, rfl, ⟨⟨0, 0, 0, 0⟩, by show (0 : ℚ) ≠ 3; decide⟩⟩

/-- Claim C3, counterexample: on the instance `one = 1`, `two = 2`,
`three = 3` (hidden field `4`), the output of `SayHello` is not exactly
`"Hello, from HelloClass with" ++ "\n" ++ "one: 1, two: 2, and three: 3"`:
the trailing `std::endl` appends a line terminator, so the claimed text is
a proper prefix of the real output. -/
theorem sayHello_output_not_terminatorless :
    (HelloClass.SayHello ⟨1, 2, 3, 4⟩).2 ≠
      "Hello, from HelloClass with\none: 1, two: 2, and three: 3" := by
  decide

/-- Claim C3, amended: for the instance with fields `one = 1`, `two = 2`,
`three = 3.0` (any hidden-field contents), `SayHello` writes exactly
`"Hello, from HelloClass with"`, a newline,
`"one: 1, two: 2, and three: 3"`, and a final line terminator — the
floating-point value `3.0` rendered as `3` by the default conversion — and
nothing else. -/
theorem sayHello_output_123 (hidden : Int) :
    (HelloClass.SayHello ⟨1, 2, 3, hidden⟩).2 =
      "Hello, from HelloClass with\none: 1, two: 2, and three: 3\n" := by
  have h3 : ostreamDouble 3 = "3" := by decide
  simp [HelloClass.SayHello, ostreamInt, h3]
  rfl

/-- Claim C4: for every triple of argument values, the three-argument
constructor sets `one`, `two` and `three` to the supplied values while the
hidden field keeps whatever indeterminate value the freshly allocated
object held. -/
theorem threeArgCtor_fields (indet : HelloClass) (a b : Int) (c : ℚ) :
    (HelloClass.mkThree indet a b c).one = a ∧
    (HelloClass.mkThree indet a b c).two = b ∧
    (HelloClass.mkThree indet a b c).three = c ∧
    (HelloClass.mkThree indet a b c).thisIsPrivate = indet.thisIsPrivate :=
  ⟨rfl, rfl, rfl, rfl⟩

/-- Claim C5: `StaticHello`, which involves no instance, writes exactly
`"Hello, from HelloClass::StaticHello!"` followed by a line terminator and
nothing else. -/
theorem staticHello_output :
    HelloClass.StaticHello = "Hello, from HelloClass::StaticHello!\n" :=
  rfl

/-- Claim C6: for every non-null text value `t` and every instance,
`Say t` writes exactly `t` followed by a line terminator and nothing else
(leaving the instance unchanged); in particular `Say "test"` emits
`"test\n"`. -/
theorem say_output (self : HelloClass) (t : String) :
    HelloClass.Say self (some t) = some (self, t ++ "\n") ∧
    HelloClass.Say self (some "test") = some (self, "test\n") :=
  ⟨rfl, rfl⟩

/-- Claim C7: calling `SayHello` twice in succession, with no modification
of the instance in between, produces identical output both times — the
output depends only on the field values of the instance, and the first call
leaves them unchanged. -/
theorem sayHello_idempotent (self : HelloClass) :
    (HelloClass.SayHello (HelloClass.SayHello self).1).2 =
      (HelloClass.SayHello self).2 :=
  rfl

/-- Claim C8: every operation of the class — the three constructor forms,
`SayHello`, `Say` with a valid text reference, `StaticHello`, and
destruction — is total on its documented domain: it executes to completion
with a defined result. -/
theorem calls_total (c : Call) (h : documented c = true) :
    ∃ r, runCall c = some r := by
  cases c with
  | say self v =>
      cases v with
      | none => simp [documented] at h
      | some s => exact ⟨_, rfl⟩
  | construct0 indet => exact ⟨_, rfl⟩
  | construct2 indet a b => exact ⟨_, rfl⟩
  | construct3 indet a b c => exact ⟨_, rfl⟩
  | sayHello self => exact ⟨_, rfl⟩
  | staticHello => exact ⟨_, rfl⟩
  | destruct self => exact ⟨_, rfl⟩

/-- Witness for C8: the totality theorem applied to a concrete documented
call. -/
theorem calls_total_witness :
    ∃ r, runCall Call.staticHello = some r :=
  calls_total Call.staticHello rfl

/-- Claim C9: for every instance and every sequence of calls to
`SayHello`, `Say` (with its defined, non-null inputs) and `StaticHello`
after construction, the object state — the fields `one`, `two`, `three`
and the hidden field — is exactly what it was before the sequence: no
operation other than construction mutates any field. -/
theorem methods_preserve_fields (self : HelloClass) (ops : List MOp) :
    (run self ops).1 = self := by
  induction ops generalizing self with
  | nil => rfl
  | cons op rest ih =>
      show (run (step self op).1 rest).1 = self
      rw [ih, step_fst]

/-- Claim C10: the output of `Say` depends only on the text argument, not
on the fields of the instance: two instances with arbitrary, possibly
different, field values produce identical output on the same non-null
text. -/
theorem say_independent_of_fields (h1 h2 : HelloClass) (t : String) :
    (HelloClass.Say h1 (some t)).map Prod.snd =
      (HelloClass.Say h2 (some t)).map Prod.snd :=
  rfl
